import Mathlib

/-!
Verification of the `canonical-errors` crate: a 16-category canonical error
taxonomy with a bidirectional mapping to an RFC-9457-style `Problem` document.

The development shallowly embeds `src/lib.rs` (context types, the
`CanonicalError` enum, `Problem`, the two conversions) and the constructor
family emitted by the `resource_error` attribute in
`canonical-errors-macros/src/lib.rs`.

JSON values (`serde_json::Value`) are modelled by the `Json` inductive below.
Objects are association lists; the code only ever produces objects with
pairwise-distinct keys, and every theorem below observes objects through
key lookup, so the entry order chosen by the embedding (Rust struct
declaration order) is immaterial.

The `gts_type : GtsSchemaId` field present on each Rust context struct is a
per-type constant: it is marked `skip_serializing`, is defaulted on
deserialization, and is never read.  It carries no information and is
therefore omitted from the embedded structs.
-/

-- ---------------------------------------------------------------------------
-- JSON model
-- ---------------------------------------------------------------------------

inductive Json where
  | null : Json
  | bool (b : Bool) : Json
  | num (n : Nat) : Json
  | str (s : String) : Json
  | arr (xs : List Json) : Json
  | obj (kvs : List (String × Json)) : Json

/-- First-match key lookup in an association list. -/
def findVal (k : String) : List (String × Json) → Option Json
  | [] => none
  | kv :: rest => if k = kv.1 then some kv.2 else findVal k rest

/-- Models `serde_json::Value::get(key)`: `None` on non-objects. -/
def Json.getKey : Json → String → Option Json
  | .obj kvs, k => findVal k kvs
  | _, _ => none

def Json.asStr : Json → Option String
  | .str s => some s
  | _ => none

def Json.asNat : Json → Option Nat
  | .num n => some n
  | _ => none

/-- Replace the value at `k` if present, else append the entry
(models map insertion in `serde_json`). -/
def setVal (k : String) (v : Json) : List (String × Json) → List (String × Json)
  | [] => [(k, v)]
  | kv :: rest => if k = kv.1 then (kv.1, v) :: rest else kv :: setVal k v rest

/-- Models `value[key] = v` on an object (the only shape the code applies it to). -/
def Json.setKey : Json → String → Json → Json
  | .obj kvs, k, v => .obj (setVal k v kvs)
  | j, _, _ => j

/-- Deserialize every element of a list, failing if any element fails
(models serde sequence deserialization). -/
def mapOpt {α β : Type} (f : α → Option β) : List α → Option (List β)
  | [] => some []
  | a :: as => (f a).bind fun b => (mapOpt f as).map fun bs => b :: bs

/-- Array of strings (models `Vec<String>` deserialization). -/
def Json.asStrList : Json → Option (List String)
  | .arr xs => mapOpt Json.asStr xs
  | _ => none

/-- Object with string values (models `HashMap<String, String>` deserialization). -/
def Json.asStrMap : Json → Option (List (String × String))
  | .obj kvs => mapOpt (fun kv => (Json.asStr kv.2).map (fun s => (kv.1, s))) kvs
  | _ => none

-- ---------------------------------------------------------------------------
-- Context types (from `src/lib.rs`)
-- ---------------------------------------------------------------------------

structure FieldViolation where
  field : String
  description : String
  reason : String

def FieldViolation.new (field description reason : String) : FieldViolation :=
  ⟨field, description, reason⟩

def FieldViolation.toJson (v : FieldViolation) : Json :=
  .obj [("field", .str v.field), ("description", .str v.description),
        ("reason", .str v.reason)]

def FieldViolation.fromJson? : Json → Option FieldViolation
  | .obj kvs =>
    match (findVal "field" kvs).bind Json.asStr with
    | none => none
    | some f =>
      match (findVal "description" kvs).bind Json.asStr with
      | none => none
      | some d =>
        match (findVal "reason" kvs).bind Json.asStr with
        | none => none
        | some r => some ⟨f, d, r⟩
  | _ => none

/-- The `#[serde(untagged)]` three-shape validation union. -/
inductive Validation where
  | FieldViolations (field_violations : List FieldViolation) : Validation
  | Format (format : String) : Validation
  | Constraint (constraint : String) : Validation

def Validation.toJson : Validation → Json
  | .FieldViolations vs => .obj [("field_violations", .arr (vs.map FieldViolation.toJson))]
  | .Format s => .obj [("format", .str s)]
  | .Constraint s => .obj [("constraint", .str s)]

/-- Untagged deserialization: try each variant in declaration order
(field_violations, then format, then constraint), accepting the first match. -/
def Validation.fromJson? : Json → Option Validation
  | .obj kvs =>
    match (findVal "field_violations" kvs).bind (fun j =>
        match j with
        | .arr xs => mapOpt FieldViolation.fromJson? xs
        | _ => none) with
    | some vs => some (.FieldViolations vs)
    | none =>
      match (findVal "format" kvs).bind Json.asStr with
      | some s => some (.Format s)
      | none =>
        match (findVal "constraint" kvs).bind Json.asStr with
        | some s => some (.Constraint s)
        | none => none
  | _ => none

structure ResourceInfo where
  resource_type : String
  resource_name : String
  description : String

def ResourceInfo.new (resource_type resource_name : String) : ResourceInfo :=
  ⟨resource_type, resource_name, "Resource not found"⟩

def ResourceInfo.with_description (r : ResourceInfo) (description : String) : ResourceInfo :=
  { r with description }

def ResourceInfo.toJson (r : ResourceInfo) : Json :=
  .obj [("resource_type", .str r.resource_type), ("resource_name", .str r.resource_name),
        ("description", .str r.description)]

def ResourceInfo.fromJson? : Json → Option ResourceInfo
  | .obj kvs =>
    match (findVal "resource_type" kvs).bind Json.asStr with
    | none => none
    | some t =>
      match (findVal "resource_name" kvs).bind Json.asStr with
      | none => none
      | some n =>
        match (findVal "description" kvs).bind Json.asStr with
        | none => none
        | some d => some ⟨t, n, d⟩
  | _ => none

/-- `metadata` models `HashMap<String, String>` as an association list. -/
structure ErrorInfo where
  reason : String
  domain : String
  metadata : List (String × String)

def ErrorInfo.new (reason domain : String) : ErrorInfo :=
  ⟨reason, domain, []⟩

def ErrorInfo.toJson (e : ErrorInfo) : Json :=
  .obj [("reason", .str e.reason), ("domain", .str e.domain),
        ("metadata", .obj (e.metadata.map (fun kv => (kv.1, .str kv.2))))]

def ErrorInfo.fromJson? : Json → Option ErrorInfo
  | .obj kvs =>
    match (findVal "reason" kvs).bind Json.asStr with
    | none => none
    | some r =>
      match (findVal "domain" kvs).bind Json.asStr with
      | none => none
      | some d =>
        match (findVal "metadata" kvs).bind Json.asStrMap with
        | none => none
        | some m => some ⟨r, d, m⟩
  | _ => none

structure QuotaViolation where
  subject : String
  description : String

def QuotaViolation.new (subject description : String) : QuotaViolation :=
  ⟨subject, description⟩

def QuotaViolation.toJson (v : QuotaViolation) : Json :=
  .obj [("subject", .str v.subject), ("description", .str v.description)]

def QuotaViolation.fromJson? : Json → Option QuotaViolation
  | .obj kvs =>
    match (findVal "subject" kvs).bind Json.asStr with
    | none => none
    | some s =>
      match (findVal "description" kvs).bind Json.asStr with
      | none => none
      | some d => some ⟨s, d⟩
  | _ => none

structure QuotaFailure where
  violations : List QuotaViolation

def QuotaFailure.new (violations : List QuotaViolation) : QuotaFailure :=
  ⟨violations⟩

def QuotaFailure.toJson (q : QuotaFailure) : Json :=
  .obj [("violations", .arr (q.violations.map QuotaViolation.toJson))]

def QuotaFailure.fromJson? : Json → Option QuotaFailure
  | .obj kvs =>
    match (findVal "violations" kvs).bind (fun j =>
        match j with
        | .arr xs => mapOpt QuotaViolation.fromJson? xs
        | _ => none) with
    | none => none
    | some vs => some ⟨vs⟩
  | _ => none

/-- `precondition_type` serializes under the key `"type"` (serde rename). -/
structure PreconditionViolation where
  precondition_type : String
  subject : String
  description : String

def PreconditionViolation.new (precondition_type subject description : String) :
    PreconditionViolation :=
  ⟨precondition_type, subject, description⟩

def PreconditionViolation.toJson (v : PreconditionViolation) : Json :=
  .obj [("type", .str v.precondition_type), ("subject", .str v.subject),
        ("description", .str v.description)]

def PreconditionViolation.fromJson? : Json → Option PreconditionViolation
  | .obj kvs =>
    match (findVal "type" kvs).bind Json.asStr with
    | none => none
    | some t =>
      match (findVal "subject" kvs).bind Json.asStr with
      | none => none
      | some s =>
        match (findVal "description" kvs).bind Json.asStr with
        | none => none
        | some d => some ⟨t, s, d⟩
  | _ => none

structure PreconditionFailure where
  violations : List PreconditionViolation

def PreconditionFailure.new (violations : List PreconditionViolation) : PreconditionFailure :=
  ⟨violations⟩

def PreconditionFailure.toJson (p : PreconditionFailure) : Json :=
  .obj [("violations", .arr (p.violations.map PreconditionViolation.toJson))]

def PreconditionFailure.fromJson? : Json → Option PreconditionFailure
  | .obj kvs =>
    match (findVal "violations" kvs).bind (fun j =>
        match j with
        | .arr xs => mapOpt PreconditionViolation.fromJson? xs
        | _ => none) with
    | none => none
    | some vs => some ⟨vs⟩
  | _ => none

structure DebugInfo where
  detail : String
  stack_entries : List String

def DebugInfo.new (detail : String) : DebugInfo :=
  ⟨detail, []⟩

def DebugInfo.with_stack (d : DebugInfo) (entries : List String) : DebugInfo :=
  { d with stack_entries := entries }

def DebugInfo.toJson (d : DebugInfo) : Json :=
  .obj [("detail", .str d.detail), ("stack_entries", .arr (d.stack_entries.map .str))]

def DebugInfo.fromJson? : Json → Option DebugInfo
  | .obj kvs =>
    match (findVal "detail" kvs).bind Json.asStr with
    | none => none
    | some detail =>
      match (findVal "stack_entries" kvs).bind Json.asStrList with
      | none => none
      | some entries => some ⟨detail, entries⟩
  | _ => none

structure RetryInfo where
  retry_after_seconds : Nat

def RetryInfo.after_seconds (seconds : Nat) : RetryInfo :=
  ⟨seconds⟩

def RetryInfo.toJson (r : RetryInfo) : Json :=
  .obj [("retry_after_seconds", .num r.retry_after_seconds)]

def RetryInfo.fromJson? : Json → Option RetryInfo
  | .obj kvs =>
    match (findVal "retry_after_seconds" kvs).bind Json.asNat with
    | none => none
    | some n => some ⟨n⟩
  | _ => none

structure RequestInfo where
  request_id : String

def RequestInfo.new (request_id : String) : RequestInfo :=
  ⟨request_id⟩

def RequestInfo.toJson (r : RequestInfo) : Json :=
  .obj [("request_id", .str r.request_id)]

def RequestInfo.fromJson? : Json → Option RequestInfo
  | .obj kvs =>
    match (findVal "request_id" kvs).bind Json.asStr with
    | none => none
    | some s => some ⟨s⟩
  | _ => none

-- ---------------------------------------------------------------------------
-- CanonicalError enum (from `src/lib.rs`)
-- ---------------------------------------------------------------------------

inductive CanonicalError where
  | Cancelled (ctx : RequestInfo) (message : String)
      (resource_type : Option String) (debug_info : Option DebugInfo)
  | Unknown (ctx : DebugInfo) (message : String)
      (resource_type : Option String) (debug_info : Option DebugInfo)
  | InvalidArgument (ctx : Validation) (message : String)
      (resource_type : Option String) (debug_info : Option DebugInfo)
  | DeadlineExceeded (ctx : RequestInfo) (message : String)
      (resource_type : Option String) (debug_info : Option DebugInfo)
  | NotFound (ctx : ResourceInfo) (message : String)
      (resource_type : Option String) (debug_info : Option DebugInfo)
  | AlreadyExists (ctx : ResourceInfo) (message : String)
      (resource_type : Option String) (debug_info : Option DebugInfo)
  | PermissionDenied (ctx : ErrorInfo) (message : String)
      (resource_type : Option String) (debug_info : Option DebugInfo)
  | ResourceExhausted (ctx : QuotaFailure) (message : String)
      (resource_type : Option String) (debug_info : Option DebugInfo)
  | FailedPrecondition (ctx : PreconditionFailure) (message : String)
      (resource_type : Option String) (debug_info : Option DebugInfo)
  | Aborted (ctx : ErrorInfo) (message : String)
      (resource_type : Option String) (debug_info : Option DebugInfo)
  | OutOfRange (ctx : Validation) (message : String)
      (resource_type : Option String) (debug_info : Option DebugInfo)
  | Unimplemented (ctx : ErrorInfo) (message : String)
      (resource_type : Option String) (debug_info : Option DebugInfo)
  | Internal (ctx : DebugInfo) (message : String)
      (resource_type : Option String) (debug_info : Option DebugInfo)
  | ServiceUnavailable (ctx : RetryInfo) (message : String)
      (resource_type : Option String) (debug_info : Option DebugInfo)
  | DataLoss (ctx : ResourceInfo) (message : String)
      (resource_type : Option String) (debug_info : Option DebugInfo)
  | Unauthenticated (ctx : ErrorInfo) (message : String)
      (resource_type : Option String) (debug_info : Option DebugInfo)

-- Ergonomic constructors (one per category), translated from `impl CanonicalError`.

def CanonicalError.cancelled (ctx : RequestInfo) : CanonicalError :=
  .Cancelled ctx "Operation cancelled by the client" none none

def CanonicalError.unknown (detail : String) : CanonicalError :=
  .Unknown (DebugInfo.new detail) detail none none

def CanonicalError.invalid_argument (ctx : Validation) : CanonicalError :=
  let message :=
    match ctx with
    | .FieldViolations _ => "Request validation failed"
    | .Format format => format
    | .Constraint constraint => constraint
  .InvalidArgument ctx message none none

def CanonicalError.deadline_exceeded (ctx : RequestInfo) : CanonicalError :=
  .DeadlineExceeded ctx "Operation did not complete within the allowed time" none none

def CanonicalError.not_found (ctx : ResourceInfo) : CanonicalError :=
  .NotFound ctx "Resource not found" none none

def CanonicalError.already_exists (ctx : ResourceInfo) : CanonicalError :=
  .AlreadyExists ctx ctx.description none none

def CanonicalError.permission_denied (ctx : ErrorInfo) : CanonicalError :=
  .PermissionDenied ctx "You do not have permission to perform this operation" none none

def CanonicalError.resource_exhausted (ctx : QuotaFailure) : CanonicalError :=
  .ResourceExhausted ctx "Quota exceeded" none none

def CanonicalError.failed_precondition (ctx : PreconditionFailure) : CanonicalError :=
  .FailedPrecondition ctx "Operation precondition not met" none none

def CanonicalError.aborted (ctx : ErrorInfo) : CanonicalError :=
  .Aborted ctx "Operation aborted due to concurrency conflict" none none

def CanonicalError.out_of_range (ctx : Validation) : CanonicalError :=
  let message :=
    match ctx with
    | .FieldViolations _ => "Value out of range"
    | .Format format => format
    | .Constraint constraint => constraint
  .OutOfRange ctx message none none

def CanonicalError.unimplemented (ctx : ErrorInfo) : CanonicalError :=
  .Unimplemented ctx "This operation is not implemented" none none

def CanonicalError.internal (ctx : DebugInfo) : CanonicalError :=
  .Internal ctx "An internal error occurred. Please retry later." none none

def CanonicalError.service_unavailable (ctx : RetryInfo) : CanonicalError :=
  .ServiceUnavailable ctx "Service temporarily unavailable" none none

def CanonicalError.data_loss (ctx : ResourceInfo) : CanonicalError :=
  .DataLoss ctx ctx.description none none

def CanonicalError.unauthenticated (ctx : ErrorInfo) : CanonicalError :=
  .Unauthenticated ctx "Authentication required" none none

-- Builder methods.

def CanonicalError.with_resource_type (e : CanonicalError) (rt : String) : CanonicalError :=
  match e with
  | .Cancelled ctx m _ d => .Cancelled ctx m (some rt) d
  | .Unknown ctx m _ d => .Unknown ctx m (some rt) d
  | .InvalidArgument ctx m _ d => .InvalidArgument ctx m (some rt) d
  | .DeadlineExceeded ctx m _ d => .DeadlineExceeded ctx m (some rt) d
  | .NotFound ctx m _ d => .NotFound ctx m (some rt) d
  | .AlreadyExists ctx m _ d => .AlreadyExists ctx m (some rt) d
  | .PermissionDenied ctx m _ d => .PermissionDenied ctx m (some rt) d
  | .ResourceExhausted ctx m _ d => .ResourceExhausted ctx m (some rt) d
  | .FailedPrecondition ctx m _ d => .FailedPrecondition ctx m (some rt) d
  | .Aborted ctx m _ d => .Aborted ctx m (some rt) d
  | .OutOfRange ctx m _ d => .OutOfRange ctx m (some rt) d
  | .Unimplemented ctx m _ d => .Unimplemented ctx m (some rt) d
  | .Internal ctx m _ d => .Internal ctx m (some rt) d
  | .ServiceUnavailable ctx m _ d => .ServiceUnavailable ctx m (some rt) d
  | .DataLoss ctx m _ d => .DataLoss ctx m (some rt) d
  | .Unauthenticated ctx m _ d => .Unauthenticated ctx m (some rt) d

def CanonicalError.with_message (e : CanonicalError) (msg : String) : CanonicalError :=
  match e with
  | .Cancelled ctx _ r d => .Cancelled ctx msg r d
  | .Unknown ctx _ r d => .Unknown ctx msg r d
  | .InvalidArgument ctx _ r d => .InvalidArgument ctx msg r d
  | .DeadlineExceeded ctx _ r d => .DeadlineExceeded ctx msg r d
  | .NotFound ctx _ r d => .NotFound ctx msg r d
  | .AlreadyExists ctx _ r d => .AlreadyExists ctx msg r d
  | .PermissionDenied ctx _ r d => .PermissionDenied ctx msg r d
  | .ResourceExhausted ctx _ r d => .ResourceExhausted ctx msg r d
  | .FailedPrecondition ctx _ r d => .FailedPrecondition ctx msg r d
  | .Aborted ctx _ r d => .Aborted ctx msg r d
  | .OutOfRange ctx _ r d => .OutOfRange ctx msg r d
  | .Unimplemented ctx _ r d => .Unimplemented ctx msg r d
  | .Internal ctx _ r d => .Internal ctx msg r d
  | .ServiceUnavailable ctx _ r d => .ServiceUnavailable ctx msg r d
  | .DataLoss ctx _ r d => .DataLoss ctx msg r d
  | .Unauthenticated ctx _ r d => .Unauthenticated ctx msg r d

def CanonicalError.with_debug_info (e : CanonicalError) (info : DebugInfo) : CanonicalError :=
  match e with
  | .Cancelled ctx m r _ => .Cancelled ctx m r (some info)
  | .Unknown ctx m r _ => .Unknown ctx m r (some info)
  | .InvalidArgument ctx m r _ => .InvalidArgument ctx m r (some info)
  | .DeadlineExceeded ctx m r _ => .DeadlineExceeded ctx m r (some info)
  | .NotFound ctx m r _ => .NotFound ctx m r (some info)
  | .AlreadyExists ctx m r _ => .AlreadyExists ctx m r (some info)
  | .PermissionDenied ctx m r _ => .PermissionDenied ctx m r (some info)
  | .ResourceExhausted ctx m r _ => .ResourceExhausted ctx m r (some info)
  | .FailedPrecondition ctx m r _ => .FailedPrecondition ctx m r (some info)
  | .Aborted ctx m r _ => .Aborted ctx m r (some info)
  | .OutOfRange ctx m r _ => .OutOfRange ctx m r (some info)
  | .Unimplemented ctx m r _ => .Unimplemented ctx m r (some info)
  | .Internal ctx m r _ => .Internal ctx m r (some info)
  | .ServiceUnavailable ctx m r _ => .ServiceUnavailable ctx m r (some info)
  | .DataLoss ctx m r _ => .DataLoss ctx m r (some info)
  | .Unauthenticated ctx m r _ => .Unauthenticated ctx m r (some info)

-- Accessors.

def CanonicalError.message : CanonicalError → String
  | .Cancelled _ m _ _ | .Unknown _ m _ _ | .InvalidArgument _ m _ _
  | .DeadlineExceeded _ m _ _ | .NotFound _ m _ _ | .AlreadyExists _ m _ _
  | .PermissionDenied _ m _ _ | .ResourceExhausted _ m _ _ | .FailedPrecondition _ m _ _
  | .Aborted _ m _ _ | .OutOfRange _ m _ _ | .Unimplemented _ m _ _
  | .Internal _ m _ _ | .ServiceUnavailable _ m _ _ | .DataLoss _ m _ _
  | .Unauthenticated _ m _ _ => m

def CanonicalError.resource_type : CanonicalError → Option String
  | .Cancelled _ _ r _ | .Unknown _ _ r _ | .InvalidArgument _ _ r _
  | .DeadlineExceeded _ _ r _ | .NotFound _ _ r _ | .AlreadyExists _ _ r _
  | .PermissionDenied _ _ r _ | .ResourceExhausted _ _ r _ | .FailedPrecondition _ _ r _
  | .Aborted _ _ r _ | .OutOfRange _ _ r _ | .Unimplemented _ _ r _
  | .Internal _ _ r _ | .ServiceUnavailable _ _ r _ | .DataLoss _ _ r _
  | .Unauthenticated _ _ r _ => r

def CanonicalError.debug_info : CanonicalError → Option DebugInfo
  | .Cancelled _ _ _ d | .Unknown _ _ _ d | .InvalidArgument _ _ _ d
  | .DeadlineExceeded _ _ _ d | .NotFound _ _ _ d | .AlreadyExists _ _ _ d
  | .PermissionDenied _ _ _ d | .ResourceExhausted _ _ _ d | .FailedPrecondition _ _ _ d
  | .Aborted _ _ _ d | .OutOfRange _ _ _ d | .Unimplemented _ _ _ d
  | .Internal _ _ _ d | .ServiceUnavailable _ _ _ d | .DataLoss _ _ _ d
  | .Unauthenticated _ _ _ d => d

def CanonicalError.gts_type : CanonicalError → String
  | .Cancelled .. => "gts.cf.core.errors.err.v1~cf.core.errors.cancelled.v1~"
  | .Unknown .. => "gts.cf.core.errors.err.v1~cf.core.errors.unknown.v1~"
  | .InvalidArgument .. => "gts.cf.core.errors.err.v1~cf.core.errors.invalid_argument.v1~"
  | .DeadlineExceeded .. => "gts.cf.core.errors.err.v1~cf.core.errors.deadline_exceeded.v1~"
  | .NotFound .. => "gts.cf.core.errors.err.v1~cf.core.errors.not_found.v1~"
  | .AlreadyExists .. => "gts.cf.core.errors.err.v1~cf.core.errors.already_exists.v1~"
  | .PermissionDenied .. => "gts.cf.core.errors.err.v1~cf.core.errors.permission_denied.v1~"
  | .ResourceExhausted .. => "gts.cf.core.errors.err.v1~cf.core.errors.resource_exhausted.v1~"
  | .FailedPrecondition .. => "gts.cf.core.errors.err.v1~cf.core.errors.failed_precondition.v1~"
  | .Aborted .. => "gts.cf.core.errors.err.v1~cf.core.errors.aborted.v1~"
  | .OutOfRange .. => "gts.cf.core.errors.err.v1~cf.core.errors.out_of_range.v1~"
  | .Unimplemented .. => "gts.cf.core.errors.err.v1~cf.core.errors.unimplemented.v1~"
  | .Internal .. => "gts.cf.core.errors.err.v1~cf.core.errors.internal.v1~"
  | .ServiceUnavailable .. => "gts.cf.core.errors.err.v1~cf.core.errors.service_unavailable.v1~"
  | .DataLoss .. => "gts.cf.core.errors.err.v1~cf.core.errors.data_loss.v1~"
  | .Unauthenticated .. => "gts.cf.core.errors.err.v1~cf.core.errors.unauthenticated.v1~"

def CanonicalError.status_code : CanonicalError → Nat
  | .Cancelled .. => 499
  | .Unknown .. => 500
  | .InvalidArgument .. => 400
  | .DeadlineExceeded .. => 504
  | .NotFound .. => 404
  | .AlreadyExists .. => 409
  | .PermissionDenied .. => 403
  | .ResourceExhausted .. => 429
  | .FailedPrecondition .. => 400
  | .Aborted .. => 409
  | .OutOfRange .. => 400
  | .Unimplemented .. => 501
  | .Internal .. => 500
  | .ServiceUnavailable .. => 503
  | .DataLoss .. => 500
  | .Unauthenticated .. => 401

def CanonicalError.title : CanonicalError → String
  | .Cancelled .. => "Cancelled"
  | .Unknown .. => "Unknown"
  | .InvalidArgument .. => "Invalid Argument"
  | .DeadlineExceeded .. => "Deadline Exceeded"
  | .NotFound .. => "Not Found"
  | .AlreadyExists .. => "Already Exists"
  | .PermissionDenied .. => "Permission Denied"
  | .ResourceExhausted .. => "Resource Exhausted"
  | .FailedPrecondition .. => "Failed Precondition"
  | .Aborted .. => "Aborted"
  | .OutOfRange .. => "Out of Range"
  | .Unimplemented .. => "Unimplemented"
  | .Internal .. => "Internal"
  | .ServiceUnavailable .. => "Unavailable"
  | .DataLoss .. => "Data Loss"
  | .Unauthenticated .. => "Unauthenticated"

def CanonicalError.category_name : CanonicalError → String
  | .Cancelled .. => "cancelled"
  | .Unknown .. => "unknown"
  | .InvalidArgument .. => "invalid_argument"
  | .DeadlineExceeded .. => "deadline_exceeded"
  | .NotFound .. => "not_found"
  | .AlreadyExists .. => "already_exists"
  | .PermissionDenied .. => "permission_denied"
  | .ResourceExhausted .. => "resource_exhausted"
  | .FailedPrecondition .. => "failed_precondition"
  | .Aborted .. => "aborted"
  | .OutOfRange .. => "out_of_range"
  | .Unimplemented .. => "unimplemented"
  | .Internal .. => "internal"
  | .ServiceUnavailable .. => "unavailable"
  | .DataLoss .. => "data_loss"
  | .Unauthenticated .. => "unauthenticated"

-- ---------------------------------------------------------------------------
-- Problem document and CanonicalError → Problem conversion
-- ---------------------------------------------------------------------------

/-- RFC-9457-style problem document.  The Rust field `instance` is renamed
`instance_` because `instance` is a Lean keyword. -/
structure Problem where
  problem_type : String
  title : String
  status : Nat
  detail : String
  instance_ : Option String
  trace_id : Option String
  context : Json
  debug : Option Json

/-- Serialization of the category-bound context value inside `Problem::build`. -/
def CanonicalError.ctxJson : CanonicalError → Json
  | .Cancelled ctx _ _ _ => ctx.toJson
  | .Unknown ctx _ _ _ => ctx.toJson
  | .InvalidArgument ctx _ _ _ => ctx.toJson
  | .DeadlineExceeded ctx _ _ _ => ctx.toJson
  | .NotFound ctx _ _ _ => ctx.toJson
  | .AlreadyExists ctx _ _ _ => ctx.toJson
  | .PermissionDenied ctx _ _ _ => ctx.toJson
  | .ResourceExhausted ctx _ _ _ => ctx.toJson
  | .FailedPrecondition ctx _ _ _ => ctx.toJson
  | .Aborted ctx _ _ _ => ctx.toJson
  | .OutOfRange ctx _ _ _ => ctx.toJson
  | .Unimplemented ctx _ _ _ => ctx.toJson
  | .Internal ctx _ _ _ => ctx.toJson
  | .ServiceUnavailable ctx _ _ _ => ctx.toJson
  | .DataLoss ctx _ _ _ => ctx.toJson
  | .Unauthenticated ctx _ _ _ => ctx.toJson

def Problem.build (err : CanonicalError) (include_debug : Bool) : Problem :=
  let context :=
    match err.resource_type with
    | some rt => err.ctxJson.setKey "resource_type" (.str rt)
    | none => err.ctxJson
  let debug_value :=
    if include_debug then err.debug_info.map DebugInfo.toJson else none
  { problem_type := err.gts_type
    title := err.title
    status := err.status_code
    detail := err.message
    instance_ := none
    trace_id := none
    context := context
    debug := debug_value }

/-- `Problem::from_error` (production mode): debug info always omitted. -/
def Problem.from_error (err : CanonicalError) : Problem :=
  Problem.build err false

/-- `Problem::from_error_debug` (debug mode). -/
def Problem.from_error_debug (err : CanonicalError) : Problem :=
  Problem.build err true

/-- The `From<CanonicalError> for Problem` implementation. -/
def Problem.fromCanonical (err : CanonicalError) : Problem :=
  Problem.from_error err

/-- Serialized JSON shape of a `Problem`: optional fields that are `None`
are omitted entirely (serde `skip_serializing_if = "Option::is_none"`). -/
def Problem.toJson (p : Problem) : Json :=
  .obj ([("type", .str p.problem_type), ("title", .str p.title),
         ("status", .num p.status), ("detail", .str p.detail)]
    ++ (match p.instance_ with | some s => [("instance", Json.str s)] | none => [])
    ++ (match p.trace_id with | some s => [("trace_id", Json.str s)] | none => [])
    ++ [("context", p.context)]
    ++ (match p.debug with | some d => [("debug", d)] | none => []))

-- ---------------------------------------------------------------------------
-- Problem → CanonicalError conversion (fallible)
-- ---------------------------------------------------------------------------

/-- Conversion failure taxonomy.  The Rust `ContextDeserializationFailed`
variant also carries the underlying `serde_json::Error`; the embedding keeps
only the category name, which is all the claims mention. -/
inductive ProblemConversionError where
  | InvalidType (s : String)
  | UnknownCategory (s : String)
  | ContextDeserializationFailed (category : String)

/-- GTS type URI leading segment: `gts.cf.core.errors.err.v1~cf.core.errors.` -/
def gtsTypePre : String := "gts.cf.core.errors.err.v1~cf.core.errors."

/-- GTS type URI trailing segment: `.v1~` -/
def gtsTypeSuf : String := ".v1~"

/-- Remove the leading characters `p` from `cs`, or fail
(models `str::strip_prefix`, which the code applies to the type URI). -/
def dropPre : List Char → List Char → Option (List Char)
  | cs, [] => some cs
  | [], _ :: _ => none
  | c :: cs, p :: ps => if c = p then dropPre cs ps else none

/-- Remove the trailing characters `s` from `cs`, or fail
(models `str::strip_suffix`). -/
def dropSuf (cs s : List Char) : Option (List Char) :=
  (dropPre cs.reverse s.reverse).map List.reverse

/-- The category-name extraction of `parse_category`, as an `Option`. -/
def stripCat (problem_type : String) : Option String :=
  match dropPre problem_type.toList gtsTypePre.toList with
  | none => none
  | some rest =>
    match dropSuf rest gtsTypeSuf.toList with
    | none => none
    | some cat => some ⟨cat⟩

/-- `parse_category`: strip the fixed leading and trailing URI segments and
return the category name, else `InvalidType` carrying the whole string. -/
def parse_category (problem_type : String) :
    Except ProblemConversionError String :=
  match stripCat problem_type with
  | some cat => .ok cat
  | none => .error (.InvalidType problem_type)

/-- `extract_resource_type`: read a string-valued `resource_type` key from
the context value, if any. -/
def extract_resource_type (context : Json) : Option String :=
  (context.getKey "resource_type").bind Json.asStr

/-- The debug-payload deserialization step of `TryFrom<Problem>`:
it runs before the category dispatch and maps failure to
`ContextDeserializationFailed` with the parsed category name. -/
def debugParse (d : Option Json) (category : String) :
    Except ProblemConversionError (Option DebugInfo) :=
  match d with
  | none => .ok none
  | some v =>
    match DebugInfo.fromJson? v with
    | some info => .ok (some info)
    | none => .error (.ContextDeserializationFailed category)

/-- The 16-way category dispatch at the end of `TryFrom<Problem>`, with
`deser_ctx` inlined in each arm. -/
def dispatch (category : String) (context : Json) (message : String)
    (resource_type : Option String) (debug_info : Option DebugInfo) :
    Except ProblemConversionError CanonicalError :=
  match category with
  | "cancelled" =>
    match RequestInfo.fromJson? context with
    | some ctx => .ok (.Cancelled ctx message resource_type debug_info)
    | none => .error (.ContextDeserializationFailed "cancelled")
  | "unknown" =>
    match DebugInfo.fromJson? context with
    | some ctx => .ok (.Unknown ctx message resource_type debug_info)
    | none => .error (.ContextDeserializationFailed "unknown")
  | "invalid_argument" =>
    match Validation.fromJson? context with
    | some ctx => .ok (.InvalidArgument ctx message resource_type debug_info)
    | none => .error (.ContextDeserializationFailed "invalid_argument")
  | "deadline_exceeded" =>
    match RequestInfo.fromJson? context with
    | some ctx => .ok (.DeadlineExceeded ctx message resource_type debug_info)
    | none => .error (.ContextDeserializationFailed "deadline_exceeded")
  | "not_found" =>
    match ResourceInfo.fromJson? context with
    | some ctx => .ok (.NotFound ctx message resource_type debug_info)
    | none => .error (.ContextDeserializationFailed "not_found")
  | "already_exists" =>
    match ResourceInfo.fromJson? context with
    | some ctx => .ok (.AlreadyExists ctx message resource_type debug_info)
    | none => .error (.ContextDeserializationFailed "already_exists")
  | "permission_denied" =>
    match ErrorInfo.fromJson? context with
    | some ctx => .ok (.PermissionDenied ctx message resource_type debug_info)
    | none => .error (.ContextDeserializationFailed "permission_denied")
  | "resource_exhausted" =>
    match QuotaFailure.fromJson? context with
    | some ctx => .ok (.ResourceExhausted ctx message resource_type debug_info)
    | none => .error (.ContextDeserializationFailed "resource_exhausted")
  | "failed_precondition" =>
    match PreconditionFailure.fromJson? context with
    | some ctx => .ok (.FailedPrecondition ctx message resource_type debug_info)
    | none => .error (.ContextDeserializationFailed "failed_precondition")
  | "aborted" =>
    match ErrorInfo.fromJson? context with
    | some ctx => .ok (.Aborted ctx message resource_type debug_info)
    | none => .error (.ContextDeserializationFailed "aborted")
  | "out_of_range" =>
    match Validation.fromJson? context with
    | some ctx => .ok (.OutOfRange ctx message resource_type debug_info)
    | none => .error (.ContextDeserializationFailed "out_of_range")
  | "unimplemented" =>
    match ErrorInfo.fromJson? context with
    | some ctx => .ok (.Unimplemented ctx message resource_type debug_info)
    | none => .error (.ContextDeserializationFailed "unimplemented")
  | "internal" =>
    match DebugInfo.fromJson? context with
    | some ctx => .ok (.Internal ctx message resource_type debug_info)
    | none => .error (.ContextDeserializationFailed "internal")
  | "service_unavailable" =>
    match RetryInfo.fromJson? context with
    | some ctx => .ok (.ServiceUnavailable ctx message resource_type debug_info)
    | none => .error (.ContextDeserializationFailed "service_unavailable")
  | "data_loss" =>
    match ResourceInfo.fromJson? context with
    | some ctx => .ok (.DataLoss ctx message resource_type debug_info)
    | none => .error (.ContextDeserializationFailed "data_loss")
  | "unauthenticated" =>
    match ErrorInfo.fromJson? context with
    | some ctx => .ok (.Unauthenticated ctx message resource_type debug_info)
    | none => .error (.ContextDeserializationFailed "unauthenticated")
  | other => .error (.UnknownCategory other)

/-- `TryFrom<Problem> for CanonicalError`, step for step: parse the type URI,
extract the resource type, deserialize the debug payload, then dispatch on
the category. -/
def CanonicalError.tryFrom (problem : Problem) :
    Except ProblemConversionError CanonicalError :=
  match parse_category problem.problem_type with
  | .error e => .error e
  | .ok category =>
    let resource_type := extract_resource_type problem.context
    match debugParse problem.debug category with
    | .error e => .error e
    | .ok debug_info =>
      dispatch category problem.context problem.detail resource_type debug_info

-- ---------------------------------------------------------------------------
-- Per-resource constructor family (from `canonical-errors-macros/src/lib.rs`)
-- ---------------------------------------------------------------------------

/-- The `#[resource_error(tag)]` attribute generates one bound constructor per
category except `service_unavailable`.  Each generated function is modelled
here with the tag as an explicit first argument, translated from the
`quote!` body of the attribute. -/
def ResourceError.not_found (gts_type resource_name : String) : CanonicalError :=
  (CanonicalError.not_found (ResourceInfo.new gts_type resource_name)).with_resource_type gts_type

def ResourceError.already_exists (gts_type resource_name : String) : CanonicalError :=
  (CanonicalError.already_exists
    ((ResourceInfo.new gts_type resource_name).with_description "Resource already exists")
    ).with_resource_type gts_type

def ResourceError.data_loss (gts_type resource_name : String) : CanonicalError :=
  (CanonicalError.data_loss
    ((ResourceInfo.new gts_type resource_name).with_description "Data loss detected")
    ).with_resource_type gts_type

def ResourceError.invalid_argument (gts_type : String) (ctx : Validation) : CanonicalError :=
  (CanonicalError.invalid_argument ctx).with_resource_type gts_type

def ResourceError.permission_denied (gts_type : String) (ctx : ErrorInfo) : CanonicalError :=
  (CanonicalError.permission_denied ctx).with_resource_type gts_type

def ResourceError.unauthenticated (gts_type : String) (ctx : ErrorInfo) : CanonicalError :=
  (CanonicalError.unauthenticated ctx).with_resource_type gts_type

def ResourceError.resource_exhausted (gts_type : String) (ctx : QuotaFailure) : CanonicalError :=
  (CanonicalError.resource_exhausted ctx).with_resource_type gts_type

def ResourceError.failed_precondition (gts_type : String) (ctx : PreconditionFailure) :
    CanonicalError :=
  (CanonicalError.failed_precondition ctx).with_resource_type gts_type

def ResourceError.aborted (gts_type : String) (ctx : ErrorInfo) : CanonicalError :=
  (CanonicalError.aborted ctx).with_resource_type gts_type

def ResourceError.out_of_range (gts_type : String) (ctx : Validation) : CanonicalError :=
  (CanonicalError.out_of_range ctx).with_resource_type gts_type

def ResourceError.unimplemented (gts_type : String) (ctx : ErrorInfo) : CanonicalError :=
  (CanonicalError.unimplemented ctx).with_resource_type gts_type

def ResourceError.internal (gts_type : String) (ctx : DebugInfo) : CanonicalError :=
  (CanonicalError.internal ctx).with_resource_type gts_type

def ResourceError.unknown (gts_type detail : String) : CanonicalError :=
  (CanonicalError.unknown detail).with_resource_type gts_type

def ResourceError.deadline_exceeded (gts_type : String) (ctx : RequestInfo) : CanonicalError :=
  (CanonicalError.deadline_exceeded ctx).with_resource_type gts_type

def ResourceError.cancelled (gts_type : String) (ctx : RequestInfo) : CanonicalError :=
  (CanonicalError.cancelled ctx).with_resource_type gts_type

-- ---------------------------------------------------------------------------
-- Specification predicates
-- ---------------------------------------------------------------------------

/-- The 16 category names recognized by the dispatch of `TryFrom<Problem>`. -/
def registryNames : List String :=
  ["cancelled", "unknown", "invalid_argument", "deadline_exceeded", "not_found",
   "already_exists", "permission_denied", "resource_exhausted", "failed_precondition",
   "aborted", "out_of_range", "unimplemented", "internal", "service_unavailable",
   "data_loss", "unauthenticated"]

/-- A round trip through `Problem::from_error` and `TryFrom<Problem>`
succeeds and preserves the enum variant, the message and the status code. -/
def RoundTripOk (e : CanonicalError) : Prop :=
  ∃ e2, CanonicalError.tryFrom (Problem.from_error e) = .ok e2 ∧
    e2.category_name = e.category_name ∧ e2.message = e.message ∧
    e2.status_code = e.status_code

-- ---------------------------------------------------------------------------
-- Helper lemmas: serialization round-trips
-- ---------------------------------------------------------------------------

theorem fieldViolation_fromJson_toJson (v : FieldViolation) :
    FieldViolation.fromJson? v.toJson = some v := rfl

theorem mapOpt_fieldViolations (vs : List FieldViolation) :
    mapOpt FieldViolation.fromJson? (vs.map FieldViolation.toJson) = some vs := by
  induction vs with
  | nil => rfl
  | cons v vs ih => simp [mapOpt, fieldViolation_fromJson_toJson, ih]

theorem mapOpt_strList (xs : List String) :
    mapOpt Json.asStr (xs.map Json.str) = some xs := by
  induction xs with
  | nil => rfl
  | cons x xs ih => simp [mapOpt, Json.asStr, ih]

theorem Json.asStr_str (s : String) : Json.asStr (.str s) = some s := rfl

theorem mapOpt_strMap (m : List (String × String)) :
    mapOpt (fun kv => (Json.asStr kv.2).map (fun s => (kv.1, s)))
      (m.map (fun kv => (kv.1, Json.str kv.2))) = some m := by
  induction m with
  | nil => rfl
  | cons kv m ih => simp [mapOpt, Json.asStr_str, ih]

theorem mapOpt_quotaViolations (vs : List QuotaViolation) :
    mapOpt QuotaViolation.fromJson? (vs.map QuotaViolation.toJson) = some vs := by
  induction vs with
  | nil => rfl
  | cons v vs ih => simp [mapOpt, QuotaViolation.toJson, QuotaViolation.fromJson?,
      findVal, Json.asStr, ih]

theorem mapOpt_preconditionViolations (vs : List PreconditionViolation) :
    mapOpt PreconditionViolation.fromJson? (vs.map PreconditionViolation.toJson) = some vs := by
  induction vs with
  | nil => rfl
  | cons v vs ih => simp [mapOpt, PreconditionViolation.toJson, PreconditionViolation.fromJson?,
      findVal, Json.asStr, ih]

theorem debugInfo_fromJson_objForm (detail : String) (entries : List String) :
    DebugInfo.fromJson? (.obj [("detail", .str detail),
      ("stack_entries", .arr (entries.map .str))]) = some ⟨detail, entries⟩ := by
  simp [DebugInfo.fromJson?, findVal, Json.asStr, Json.asStrList, mapOpt_strList]

theorem debugInfo_fromJson_toJson (d : DebugInfo) :
    DebugInfo.fromJson? d.toJson = some d := by
  simpa [DebugInfo.toJson] using debugInfo_fromJson_objForm d.detail d.stack_entries

theorem errorInfo_fromJson_objForm (r d : String) (m : List (String × String)) :
    ErrorInfo.fromJson? (.obj [("reason", .str r), ("domain", .str d),
      ("metadata", .obj (m.map (fun kv => (kv.1, .str kv.2))))]) = some ⟨r, d, m⟩ := by
  simp [ErrorInfo.fromJson?, findVal, Json.asStr_str, Json.asStrMap, mapOpt_strMap]

theorem quotaFailure_fromJson_objForm (vs : List QuotaViolation) :
    QuotaFailure.fromJson? (.obj [("violations", .arr (vs.map QuotaViolation.toJson))]) =
      some ⟨vs⟩ := by
  simp [QuotaFailure.fromJson?, findVal, mapOpt_quotaViolations]

theorem preconditionFailure_fromJson_objForm (vs : List PreconditionViolation) :
    PreconditionFailure.fromJson? (.obj [("violations",
      .arr (vs.map PreconditionViolation.toJson))]) = some ⟨vs⟩ := by
  simp [PreconditionFailure.fromJson?, findVal, mapOpt_preconditionViolations]

theorem validation_fromJson_toJson (v : Validation) :
    Validation.fromJson? v.toJson = some v := by
  cases v with
  | FieldViolations vs =>
    simp [Validation.toJson, Validation.fromJson?, findVal, mapOpt_fieldViolations]
  | Format s => rfl
  | Constraint s => rfl

-- ---------------------------------------------------------------------------
-- Helper lemmas: key lookup and injection
-- ---------------------------------------------------------------------------

theorem findVal_setVal (k : String) (v : Json) (kvs : List (String × Json)) :
    findVal k (setVal k v kvs) = some v := by
  induction kvs with
  | nil => simp [setVal, findVal]
  | cons kv rest ih =>
    by_cases h : k = kv.1 <;> simp [setVal, findVal, h, ih]

theorem Json.getKey_setKey_obj (kvs : List (String × Json)) (k : String) (v : Json) :
    (Json.setKey (.obj kvs) k v).getKey k = some v := by
  simp [Json.setKey, Json.getKey, findVal_setVal]

/-- Every category-bound context serializes to a JSON object. -/
theorem CanonicalError.ctxJson_isObj (e : CanonicalError) :
    ∃ kvs, e.ctxJson = .obj kvs := by
  cases e with
  | InvalidArgument ctx m r d => cases ctx <;> exact ⟨_, rfl⟩
  | OutOfRange ctx m r d => cases ctx <;> exact ⟨_, rfl⟩
  | _ => exact ⟨_, rfl⟩

-- ---------------------------------------------------------------------------
-- Helper lemmas: type-URI parsing
-- ---------------------------------------------------------------------------

theorem stripCat_cancelled :
    stripCat "gts.cf.core.errors.err.v1~cf.core.errors.cancelled.v1~" = some "cancelled" := rfl

theorem stripCat_unknown :
    stripCat "gts.cf.core.errors.err.v1~cf.core.errors.unknown.v1~" = some "unknown" := rfl

theorem stripCat_invalid_argument :
    stripCat "gts.cf.core.errors.err.v1~cf.core.errors.invalid_argument.v1~" =
      some "invalid_argument" := rfl

theorem stripCat_deadline_exceeded :
    stripCat "gts.cf.core.errors.err.v1~cf.core.errors.deadline_exceeded.v1~" =
      some "deadline_exceeded" := rfl

theorem stripCat_not_found :
    stripCat "gts.cf.core.errors.err.v1~cf.core.errors.not_found.v1~" = some "not_found" := rfl

theorem stripCat_already_exists :
    stripCat "gts.cf.core.errors.err.v1~cf.core.errors.already_exists.v1~" =
      some "already_exists" := rfl

theorem stripCat_permission_denied :
    stripCat "gts.cf.core.errors.err.v1~cf.core.errors.permission_denied.v1~" =
      some "permission_denied" := rfl

theorem stripCat_resource_exhausted :
    stripCat "gts.cf.core.errors.err.v1~cf.core.errors.resource_exhausted.v1~" =
      some "resource_exhausted" := rfl

theorem stripCat_failed_precondition :
    stripCat "gts.cf.core.errors.err.v1~cf.core.errors.failed_precondition.v1~" =
      some "failed_precondition" := rfl

theorem stripCat_aborted :
    stripCat "gts.cf.core.errors.err.v1~cf.core.errors.aborted.v1~" = some "aborted" := rfl

theorem stripCat_out_of_range :
    stripCat "gts.cf.core.errors.err.v1~cf.core.errors.out_of_range.v1~" =
      some "out_of_range" := rfl

theorem stripCat_unimplemented :
    stripCat "gts.cf.core.errors.err.v1~cf.core.errors.unimplemented.v1~" =
      some "unimplemented" := rfl

theorem stripCat_internal :
    stripCat "gts.cf.core.errors.err.v1~cf.core.errors.internal.v1~" = some "internal" := rfl

theorem stripCat_service_unavailable :
    stripCat "gts.cf.core.errors.err.v1~cf.core.errors.service_unavailable.v1~" =
      some "service_unavailable" := rfl

theorem stripCat_data_loss :
    stripCat "gts.cf.core.errors.err.v1~cf.core.errors.data_loss.v1~" = some "data_loss" := rfl

theorem stripCat_unauthenticated :
    stripCat "gts.cf.core.errors.err.v1~cf.core.errors.unauthenticated.v1~" =
      some "unauthenticated" := rfl

theorem dropPre_append (p x : List Char) : dropPre (p ++ x) p = some x := by
  induction p with
  | nil => simp [dropPre]
  | cons c cs ih => simp [dropPre, ih]

theorem dropSuf_append (x s : List Char) : dropSuf (x ++ s) s = some x := by
  simp [dropSuf, List.reverse_append, dropPre_append]

/-- Well-formed type URIs parse to exactly the embedded category name. -/
theorem stripCat_concat (c : String) :
    stripCat (gtsTypePre ++ c ++ gtsTypeSuf) = some c := by
  have h : (gtsTypePre ++ c ++ gtsTypeSuf).toList =
      gtsTypePre.toList ++ (c.toList ++ gtsTypeSuf.toList) := by
    simp [String.toList, String.data_append, List.append_assoc]
  unfold stripCat
  rw [h, dropPre_append]
  simp [dropSuf_append, String.toList]

/-- The category dispatch never reports a malformed type URI. -/
theorem dispatch_ne_invalidType (category : String) (context : Json) (message : String)
    (resource_type : Option String) (debug_info : Option DebugInfo) (s : String) :
    dispatch category context message resource_type debug_info ≠
      .error (.InvalidType s) := by
  unfold dispatch
  split <;> (try split) <;> simp

/-- Outside the registry, the dispatch fails with `UnknownCategory`. -/
theorem dispatch_unknownCategory (category : String) (context : Json) (message : String)
    (resource_type : Option String) (debug_info : Option DebugInfo)
    (h : category ∉ registryNames) :
    dispatch category context message resource_type debug_info =
      .error (.UnknownCategory category) := by
  simp [registryNames] at h
  unfold dispatch
  split <;> simp_all

-- ---------------------------------------------------------------------------
-- Helper lemmas: per-category round trips through `Problem`
-- ---------------------------------------------------------------------------

theorem tryFrom_cancelled (ctx : RequestInfo) (m : String) (di : Option DebugInfo) :
    CanonicalError.tryFrom (Problem.from_error (.Cancelled ctx m none di)) =
      .ok (.Cancelled ctx m none none) := rfl

theorem tryFrom_unknown (ctx : DebugInfo) (m : String) (di : Option DebugInfo) :
    CanonicalError.tryFrom (Problem.from_error (.Unknown ctx m none di)) =
      .ok (.Unknown ctx m none none) := by
  simp [CanonicalError.tryFrom, Problem.from_error, Problem.build, CanonicalError.ctxJson,
    CanonicalError.resource_type, CanonicalError.gts_type, CanonicalError.message,
    parse_category, stripCat_unknown, extract_resource_type, Json.getKey, DebugInfo.toJson,
    findVal, debugParse, dispatch, debugInfo_fromJson_objForm]

theorem tryFrom_invalid_argument (ctx : Validation) (m : String) (di : Option DebugInfo) :
    CanonicalError.tryFrom (Problem.from_error (.InvalidArgument ctx m none di)) =
      .ok (.InvalidArgument ctx m none none) := by
  cases ctx with
  | FieldViolations vs =>
    simp [CanonicalError.tryFrom, Problem.from_error, Problem.build, CanonicalError.ctxJson,
      CanonicalError.resource_type, CanonicalError.gts_type, CanonicalError.message,
      parse_category, stripCat_invalid_argument, extract_resource_type, Json.getKey,
      Validation.toJson, findVal, debugParse, dispatch, Validation.fromJson?,
      mapOpt_fieldViolations]
  | Format s => rfl
  | Constraint s => rfl

theorem tryFrom_deadline_exceeded (ctx : RequestInfo) (m : String) (di : Option DebugInfo) :
    CanonicalError.tryFrom (Problem.from_error (.DeadlineExceeded ctx m none di)) =
      .ok (.DeadlineExceeded ctx m none none) := rfl

theorem tryFrom_not_found (ctx : ResourceInfo) (m : String) (di : Option DebugInfo) :
    CanonicalError.tryFrom (Problem.from_error (.NotFound ctx m none di)) =
      .ok (.NotFound ctx m (some ctx.resource_type) none) := rfl

theorem tryFrom_already_exists (ctx : ResourceInfo) (m : String) (di : Option DebugInfo) :
    CanonicalError.tryFrom (Problem.from_error (.AlreadyExists ctx m none di)) =
      .ok (.AlreadyExists ctx m (some ctx.resource_type) none) := rfl

theorem tryFrom_permission_denied (ctx : ErrorInfo) (m : String) (di : Option DebugInfo) :
    CanonicalError.tryFrom (Problem.from_error (.PermissionDenied ctx m none di)) =
      .ok (.PermissionDenied ctx m none none) := by
  simp [CanonicalError.tryFrom, Problem.from_error, Problem.build, CanonicalError.ctxJson,
    CanonicalError.resource_type, CanonicalError.gts_type, CanonicalError.message,
    parse_category, stripCat_permission_denied, extract_resource_type, Json.getKey,
    ErrorInfo.toJson, findVal, debugParse, dispatch, errorInfo_fromJson_objForm]

theorem tryFrom_resource_exhausted (ctx : QuotaFailure) (m : String) (di : Option DebugInfo) :
    CanonicalError.tryFrom (Problem.from_error (.ResourceExhausted ctx m none di)) =
      .ok (.ResourceExhausted ctx m none none) := by
  simp [CanonicalError.tryFrom, Problem.from_error, Problem.build, CanonicalError.ctxJson,
    CanonicalError.resource_type, CanonicalError.gts_type, CanonicalError.message,
    parse_category, stripCat_resource_exhausted, extract_resource_type, Json.getKey,
    QuotaFailure.toJson, findVal, debugParse, dispatch, quotaFailure_fromJson_objForm]

theorem tryFrom_failed_precondition (ctx : PreconditionFailure) (m : String)
    (di : Option DebugInfo) :
    CanonicalError.tryFrom (Problem.from_error (.FailedPrecondition ctx m none di)) =
      .ok (.FailedPrecondition ctx m none none) := by
  simp [CanonicalError.tryFrom, Problem.from_error, Problem.build, CanonicalError.ctxJson,
    CanonicalError.resource_type, CanonicalError.gts_type, CanonicalError.message,
    parse_category, stripCat_failed_precondition, extract_resource_type, Json.getKey,
    PreconditionFailure.toJson, findVal, debugParse, dispatch,
    preconditionFailure_fromJson_objForm]

theorem tryFrom_aborted (ctx : ErrorInfo) (m : String) (di : Option DebugInfo) :
    CanonicalError.tryFrom (Problem.from_error (.Aborted ctx m none di)) =
      .ok (.Aborted ctx m none none) := by
  simp [CanonicalError.tryFrom, Problem.from_error, Problem.build, CanonicalError.ctxJson,
    CanonicalError.resource_type, CanonicalError.gts_type, CanonicalError.message,
    parse_category, stripCat_aborted, extract_resource_type, Json.getKey,
    ErrorInfo.toJson, findVal, debugParse, dispatch, errorInfo_fromJson_objForm]

theorem tryFrom_out_of_range (ctx : Validation) (m : String) (di : Option DebugInfo) :
    CanonicalError.tryFrom (Problem.from_error (.OutOfRange ctx m none di)) =
      .ok (.OutOfRange ctx m none none) := by
  cases ctx with
  | FieldViolations vs =>
    simp [CanonicalError.tryFrom, Problem.from_error, Problem.build, CanonicalError.ctxJson,
      CanonicalError.resource_type, CanonicalError.gts_type, CanonicalError.message,
      parse_category, stripCat_out_of_range, extract_resource_type, Json.getKey,
      Validation.toJson, findVal, debugParse, dispatch, Validation.fromJson?,
      mapOpt_fieldViolations]
  | Format s => rfl
  | Constraint s => rfl

theorem tryFrom_unimplemented (ctx : ErrorInfo) (m : String) (di : Option DebugInfo) :
    CanonicalError.tryFrom (Problem.from_error (.Unimplemented ctx m none di)) =
      .ok (.Unimplemented ctx m none none) := by
  simp [CanonicalError.tryFrom, Problem.from_error, Problem.build, CanonicalError.ctxJson,
    CanonicalError.resource_type, CanonicalError.gts_type, CanonicalError.message,
    parse_category, stripCat_unimplemented, extract_resource_type, Json.getKey,
    ErrorInfo.toJson, findVal, debugParse, dispatch, errorInfo_fromJson_objForm]

theorem tryFrom_internal (ctx : DebugInfo) (m : String) (di : Option DebugInfo) :
    CanonicalError.tryFrom (Problem.from_error (.Internal ctx m none di)) =
      .ok (.Internal ctx m none none) := by
  simp [CanonicalError.tryFrom, Problem.from_error, Problem.build, CanonicalError.ctxJson,
    CanonicalError.resource_type, CanonicalError.gts_type, CanonicalError.message,
    parse_category, stripCat_internal, extract_resource_type, Json.getKey, DebugInfo.toJson,
    findVal, debugParse, dispatch, debugInfo_fromJson_objForm]

theorem tryFrom_service_unavailable (ctx : RetryInfo) (m : String) (di : Option DebugInfo) :
    CanonicalError.tryFrom (Problem.from_error (.ServiceUnavailable ctx m none di)) =
      .ok (.ServiceUnavailable ctx m none none) := rfl

theorem tryFrom_data_loss (ctx : ResourceInfo) (m : String) (di : Option DebugInfo) :
    CanonicalError.tryFrom (Problem.from_error (.DataLoss ctx m none di)) =
      .ok (.DataLoss ctx m (some ctx.resource_type) none) := rfl

theorem tryFrom_unauthenticated (ctx : ErrorInfo) (m : String) (di : Option DebugInfo) :
    CanonicalError.tryFrom (Problem.from_error (.Unauthenticated ctx m none di)) =
      .ok (.Unauthenticated ctx m none none) := by
  simp [CanonicalError.tryFrom, Problem.from_error, Problem.build, CanonicalError.ctxJson,
    CanonicalError.resource_type, CanonicalError.gts_type, CanonicalError.message,
    parse_category, stripCat_unauthenticated, extract_resource_type, Json.getKey,
    ErrorInfo.toJson, findVal, debugParse, dispatch, errorInfo_fromJson_objForm]

-- ---------------------------------------------------------------------------
-- Claim theorems
-- ---------------------------------------------------------------------------

/-- C4: `Problem::from_error` and `Problem::from_error_debug` agree on every
field except `debug`; `from_error` never emits a debug field;
`from_error_debug` emits exactly the serialized debug payload when the error
carries one; and the `From` conversion equals `from_error`. -/
theorem claim_C4 (e : CanonicalError) :
    (Problem.from_error e).problem_type = (Problem.from_error_debug e).problem_type ∧
    (Problem.from_error e).title = (Problem.from_error_debug e).title ∧
    (Problem.from_error e).status = (Problem.from_error_debug e).status ∧
    (Problem.from_error e).detail = (Problem.from_error_debug e).detail ∧
    (Problem.from_error e).instance_ = (Problem.from_error_debug e).instance_ ∧
    (Problem.from_error e).trace_id = (Problem.from_error_debug e).trace_id ∧
    (Problem.from_error e).context = (Problem.from_error_debug e).context ∧
    (Problem.from_error e).debug = none ∧
    (Problem.from_error_debug e).debug = e.debug_info.map DebugInfo.toJson ∧
    Problem.fromCanonical e = Problem.from_error e := by
  and_intros <;> rfl

/-- C6: every category constructor installs the default message given in the
spec: fixed literals for most categories, the caller-supplied detail for
`unknown`, a shape-dependent message for the two `Validation` categories, and
the `ResourceInfo` description for `already_exists` and `data_loss`. -/
theorem claim_C6 :
    (∀ ctx, (CanonicalError.cancelled ctx).message = "Operation cancelled by the client") ∧
    (∀ s, (CanonicalError.unknown s).message = s) ∧
    (∀ vs, (CanonicalError.invalid_argument (.FieldViolations vs)).message =
      "Request validation failed") ∧
    (∀ s, (CanonicalError.invalid_argument (.Format s)).message = s) ∧
    (∀ s, (CanonicalError.invalid_argument (.Constraint s)).message = s) ∧
    (∀ ctx, (CanonicalError.deadline_exceeded ctx).message =
      "Operation did not complete within the allowed time") ∧
    (∀ ctx, (CanonicalError.not_found ctx).message = "Resource not found") ∧
    (∀ ctx, (CanonicalError.already_exists ctx).message = ctx.description) ∧
    (∀ ctx, (CanonicalError.permission_denied ctx).message =
      "You do not have permission to perform this operation") ∧
    (∀ ctx, (CanonicalError.resource_exhausted ctx).message = "Quota exceeded") ∧
    (∀ ctx, (CanonicalError.failed_precondition ctx).message =
      "Operation precondition not met") ∧
    (∀ ctx, (CanonicalError.aborted ctx).message =
      "Operation aborted due to concurrency conflict") ∧
    (∀ vs, (CanonicalError.out_of_range (.FieldViolations vs)).message =
      "Value out of range") ∧
    (∀ s, (CanonicalError.out_of_range (.Format s)).message = s) ∧
    (∀ s, (CanonicalError.out_of_range (.Constraint s)).message = s) ∧
    (∀ ctx, (CanonicalError.unimplemented ctx).message = "This operation is not implemented") ∧
    (∀ ctx, (CanonicalError.internal ctx).message =
      "An internal error occurred. Please retry later.") ∧
    (∀ ctx, (CanonicalError.service_unavailable ctx).message =
      "Service temporarily unavailable") ∧
    (∀ ctx, (CanonicalError.data_loss ctx).message = ctx.description) ∧
    (∀ ctx, (CanonicalError.unauthenticated ctx).message = "Authentication required") := by
  and_intros <;> intro x <;> rfl

/-- C9: for the three `ResourceInfo`-backed categories an untagged error does
not round-trip to an untagged error: the rebuilt error's resource type is the
`resource_type` field of the serialized `ResourceInfo` context, because the
reverse conversion reads any `resource_type` key found in the context. -/
theorem claim_C9 :
    (∀ (ri : ResourceInfo) (m : String) (di : Option DebugInfo),
      CanonicalError.tryFrom (Problem.from_error (.NotFound ri m none di)) =
        .ok (.NotFound ri m (some ri.resource_type) none)) ∧
    (∀ (ri : ResourceInfo) (m : String) (di : Option DebugInfo),
      CanonicalError.tryFrom (Problem.from_error (.AlreadyExists ri m none di)) =
        .ok (.AlreadyExists ri m (some ri.resource_type) none)) ∧
    (∀ (ri : ResourceInfo) (m : String) (di : Option DebugInfo),
      CanonicalError.tryFrom (Problem.from_error (.DataLoss ri m none di)) =
        .ok (.DataLoss ri m (some ri.resource_type) none)) :=
  ⟨tryFrom_not_found, tryFrom_already_exists, tryFrom_data_loss⟩

/-- C5: `status_code`, `title` and `gts_type` agree with the registry table
for every error of every category, each `gts_type` is the fixed leading
segment plus the category name plus the fixed trailing segment, and the 16
type URIs are pairwise distinct. -/
theorem claim_C5 :
    (∀ (ctx : RequestInfo) m r d, (CanonicalError.Cancelled ctx m r d).status_code = 499 ∧
      (CanonicalError.Cancelled ctx m r d).title = "Cancelled" ∧
      (CanonicalError.Cancelled ctx m r d).gts_type = gtsTypePre ++ "cancelled" ++ gtsTypeSuf) ∧
    (∀ (ctx : DebugInfo) m r d, (CanonicalError.Unknown ctx m r d).status_code = 500 ∧
      (CanonicalError.Unknown ctx m r d).title = "Unknown" ∧
      (CanonicalError.Unknown ctx m r d).gts_type = gtsTypePre ++ "unknown" ++ gtsTypeSuf) ∧
    (∀ (ctx : Validation) m r d, (CanonicalError.InvalidArgument ctx m r d).status_code = 400 ∧
      (CanonicalError.InvalidArgument ctx m r d).title = "Invalid Argument" ∧
      (CanonicalError.InvalidArgument ctx m r d).gts_type =
        gtsTypePre ++ "invalid_argument" ++ gtsTypeSuf) ∧
    (∀ (ctx : RequestInfo) m r d, (CanonicalError.DeadlineExceeded ctx m r d).status_code = 504 ∧
      (CanonicalError.DeadlineExceeded ctx m r d).title = "Deadline Exceeded" ∧
      (CanonicalError.DeadlineExceeded ctx m r d).gts_type =
        gtsTypePre ++ "deadline_exceeded" ++ gtsTypeSuf) ∧
    (∀ (ctx : ResourceInfo) m r d, (CanonicalError.NotFound ctx m r d).status_code = 404 ∧
      (CanonicalError.NotFound ctx m r d).title = "Not Found" ∧
      (CanonicalError.NotFound ctx m r d).gts_type = gtsTypePre ++ "not_found" ++ gtsTypeSuf) ∧
    (∀ (ctx : ResourceInfo) m r d, (CanonicalError.AlreadyExists ctx m r d).status_code = 409 ∧
      (CanonicalError.AlreadyExists ctx m r d).title = "Already Exists" ∧
      (CanonicalError.AlreadyExists ctx m r d).gts_type =
        gtsTypePre ++ "already_exists" ++ gtsTypeSuf) ∧
    (∀ (ctx : ErrorInfo) m r d, (CanonicalError.PermissionDenied ctx m r d).status_code = 403 ∧
      (CanonicalError.PermissionDenied ctx m r d).title = "Permission Denied" ∧
      (CanonicalError.PermissionDenied ctx m r d).gts_type =
        gtsTypePre ++ "permission_denied" ++ gtsTypeSuf) ∧
    (∀ (ctx : QuotaFailure) m r d, (CanonicalError.ResourceExhausted ctx m r d).status_code = 429 ∧
      (CanonicalError.ResourceExhausted ctx m r d).title = "Resource Exhausted" ∧
      (CanonicalError.ResourceExhausted ctx m r d).gts_type =
        gtsTypePre ++ "resource_exhausted" ++ gtsTypeSuf) ∧
    (∀ (ctx : PreconditionFailure) m r d,
      (CanonicalError.FailedPrecondition ctx m r d).status_code = 400 ∧
      (CanonicalError.FailedPrecondition ctx m r d).title = "Failed Precondition" ∧
      (CanonicalError.FailedPrecondition ctx m r d).gts_type =
        gtsTypePre ++ "failed_precondition" ++ gtsTypeSuf) ∧
    (∀ (ctx : ErrorInfo) m r d, (CanonicalError.Aborted ctx m r d).status_code = 409 ∧
      (CanonicalError.Aborted ctx m r d).title = "Aborted" ∧
      (CanonicalError.Aborted ctx m r d).gts_type = gtsTypePre ++ "aborted" ++ gtsTypeSuf) ∧
    (∀ (ctx : Validation) m r d, (CanonicalError.OutOfRange ctx m r d).status_code = 400 ∧
      (CanonicalError.OutOfRange ctx m r d).title = "Out of Range" ∧
      (CanonicalError.OutOfRange ctx m r d).gts_type =
        gtsTypePre ++ "out_of_range" ++ gtsTypeSuf) ∧
    (∀ (ctx : ErrorInfo) m r d, (CanonicalError.Unimplemented ctx m r d).status_code = 501 ∧
      (CanonicalError.Unimplemented ctx m r d).title = "Unimplemented" ∧
      (CanonicalError.Unimplemented ctx m r d).gts_type =
        gtsTypePre ++ "unimplemented" ++ gtsTypeSuf) ∧
    (∀ (ctx : DebugInfo) m r d, (CanonicalError.Internal ctx m r d).status_code = 500 ∧
      (CanonicalError.Internal ctx m r d).title = "Internal" ∧
      (CanonicalError.Internal ctx m r d).gts_type = gtsTypePre ++ "internal" ++ gtsTypeSuf) ∧
    (∀ (ctx : RetryInfo) m r d, (CanonicalError.ServiceUnavailable ctx m r d).status_code = 503 ∧
      (CanonicalError.ServiceUnavailable ctx m r d).title = "Unavailable" ∧
      (CanonicalError.ServiceUnavailable ctx m r d).gts_type =
        gtsTypePre ++ "service_unavailable" ++ gtsTypeSuf) ∧
    (∀ (ctx : ResourceInfo) m r d, (CanonicalError.DataLoss ctx m r d).status_code = 500 ∧
      (CanonicalError.DataLoss ctx m r d).title = "Data Loss" ∧
      (CanonicalError.DataLoss ctx m r d).gts_type = gtsTypePre ++ "data_loss" ++ gtsTypeSuf) ∧
    (∀ (ctx : ErrorInfo) m r d, (CanonicalError.Unauthenticated ctx m r d).status_code = 401 ∧
      (CanonicalError.Unauthenticated ctx m r d).title = "Unauthenticated" ∧
      (CanonicalError.Unauthenticated ctx m r d).gts_type =
        gtsTypePre ++ "unauthenticated" ++ gtsTypeSuf) ∧
    ([gtsTypePre ++ "cancelled" ++ gtsTypeSuf, gtsTypePre ++ "unknown" ++ gtsTypeSuf,
      gtsTypePre ++ "invalid_argument" ++ gtsTypeSuf,
      gtsTypePre ++ "deadline_exceeded" ++ gtsTypeSuf,
      gtsTypePre ++ "not_found" ++ gtsTypeSuf, gtsTypePre ++ "already_exists" ++ gtsTypeSuf,
      gtsTypePre ++ "permission_denied" ++ gtsTypeSuf,
      gtsTypePre ++ "resource_exhausted" ++ gtsTypeSuf,
      gtsTypePre ++ "failed_precondition" ++ gtsTypeSuf,
      gtsTypePre ++ "aborted" ++ gtsTypeSuf, gtsTypePre ++ "out_of_range" ++ gtsTypeSuf,
      gtsTypePre ++ "unimplemented" ++ gtsTypeSuf, gtsTypePre ++ "internal" ++ gtsTypeSuf,
      gtsTypePre ++ "service_unavailable" ++ gtsTypeSuf,
      gtsTypePre ++ "data_loss" ++ gtsTypeSuf,
      gtsTypePre ++ "unauthenticated" ++ gtsTypeSuf] : List String).Nodup := by
  and_intros <;> first
  | exact fun ctx m r d => ⟨rfl, rfl, rfl⟩
  | decide

/-- C10: conversion never populates `instance` or `trace_id`, and the
serialized `Problem` omits both keys entirely rather than emitting null. -/
theorem claim_C10 (e : CanonicalError) :
    (Problem.from_error e).instance_ = none ∧ (Problem.from_error e).trace_id = none ∧
    (Problem.from_error_debug e).instance_ = none ∧
    (Problem.from_error_debug e).trace_id = none ∧
    (Problem.fromCanonical e).instance_ = none ∧ (Problem.fromCanonical e).trace_id = none ∧
    (Problem.from_error e).toJson.getKey "instance" = none ∧
    (Problem.from_error e).toJson.getKey "trace_id" = none ∧
    (Problem.from_error_debug e).toJson.getKey "instance" = none ∧
    (Problem.from_error_debug e).toJson.getKey "trace_id" = none := by
  refine ⟨rfl, rfl, rfl, rfl, rfl, rfl, rfl, rfl, ?_, ?_⟩ <;>
    cases h : e.debug_info <;>
    simp [Problem.from_error_debug, Problem.build, Problem.toJson, Json.getKey, findVal, h]

/-- C8: each constructor generated by the `resource_error` attribute for tag
`R` equals the corresponding system-level constructor followed by
`with_resource_type R`; for the three resource-identity categories the
context is the internally built `ResourceInfo` with the bound tag and the
category default description. -/
theorem claim_C8 (R n : String) :
    (ResourceError.not_found R n =
      (CanonicalError.not_found (ResourceInfo.new R n)).with_resource_type R) ∧
    (ResourceError.not_found R n).category_name = "not_found" ∧
    (ResourceError.not_found R n).resource_type = some R ∧
    (ResourceError.not_found R n).message =
      ((CanonicalError.not_found (ResourceInfo.new R n)).with_resource_type R).message ∧
    (ResourceError.already_exists R n =
      (CanonicalError.already_exists
        ((ResourceInfo.new R n).with_description "Resource already exists")
        ).with_resource_type R) ∧
    (ResourceError.data_loss R n =
      (CanonicalError.data_loss
        ((ResourceInfo.new R n).with_description "Data loss detected")
        ).with_resource_type R) ∧
    (ResourceError.unknown R n = (CanonicalError.unknown n).with_resource_type R) ∧
    (∀ ctx, ResourceError.invalid_argument R ctx =
      (CanonicalError.invalid_argument ctx).with_resource_type R) ∧
    (∀ ctx, ResourceError.permission_denied R ctx =
      (CanonicalError.permission_denied ctx).with_resource_type R) ∧
    (∀ ctx, ResourceError.unauthenticated R ctx =
      (CanonicalError.unauthenticated ctx).with_resource_type R) ∧
    (∀ ctx, ResourceError.resource_exhausted R ctx =
      (CanonicalError.resource_exhausted ctx).with_resource_type R) ∧
    (∀ ctx, ResourceError.failed_precondition R ctx =
      (CanonicalError.failed_precondition ctx).with_resource_type R) ∧
    (∀ ctx, ResourceError.aborted R ctx =
      (CanonicalError.aborted ctx).with_resource_type R) ∧
    (∀ ctx, ResourceError.out_of_range R ctx =
      (CanonicalError.out_of_range ctx).with_resource_type R) ∧
    (∀ ctx, ResourceError.unimplemented R ctx =
      (CanonicalError.unimplemented ctx).with_resource_type R) ∧
    (∀ ctx, ResourceError.internal R ctx =
      (CanonicalError.internal ctx).with_resource_type R) ∧
    (∀ ctx, ResourceError.deadline_exceeded R ctx =
      (CanonicalError.deadline_exceeded ctx).with_resource_type R) ∧
    (∀ ctx, ResourceError.cancelled R ctx =
      (CanonicalError.cancelled ctx).with_resource_type R) := by
  and_intros <;> first
  | rfl
  | exact fun ctx => rfl

/-- C2 counterexample: an untagged `not_found` error — `resource_type()` is
`None` — still yields a `Problem` whose context contains a `resource_type`
key, because the serialized `ResourceInfo` context carries its own
`resource_type` field. -/
theorem claim_C2_counterexample :
    (CanonicalError.not_found (ResourceInfo.new "t" "n")).resource_type = none ∧
    (Problem.from_error (CanonicalError.not_found (ResourceInfo.new "t" "n"))).context.getKey
      "resource_type" = some (.str "t") :=
  ⟨rfl, rfl⟩

/-- C2 amended: a tagged error's context carries the tag under
`resource_type` (overwriting any pre-existing key); an untagged error of any
of the 13 categories whose context type has no `resource_type` field yields a
context without that key; an untagged error of the three
`ResourceInfo`-backed categories yields a context whose `resource_type` key
holds the `ResourceInfo`'s own `resource_type` field. -/
theorem claim_C2_amended :
    (∀ (e : CanonicalError) (rt : String), e.resource_type = some rt →
      (Problem.from_error e).context.getKey "resource_type" = some (.str rt)) ∧
    (∀ (ctx : RequestInfo) m di,
      (Problem.from_error (.Cancelled ctx m none di)).context.getKey "resource_type" = none) ∧
    (∀ (ctx : DebugInfo) m di,
      (Problem.from_error (.Unknown ctx m none di)).context.getKey "resource_type" = none) ∧
    (∀ (ctx : Validation) m di,
      (Problem.from_error (.InvalidArgument ctx m none di)).context.getKey "resource_type"
        = none) ∧
    (∀ (ctx : RequestInfo) m di,
      (Problem.from_error (.DeadlineExceeded ctx m none di)).context.getKey "resource_type"
        = none) ∧
    (∀ (ctx : ErrorInfo) m di,
      (Problem.from_error (.PermissionDenied ctx m none di)).context.getKey "resource_type"
        = none) ∧
    (∀ (ctx : QuotaFailure) m di,
      (Problem.from_error (.ResourceExhausted ctx m none di)).context.getKey "resource_type"
        = none) ∧
    (∀ (ctx : PreconditionFailure) m di,
      (Problem.from_error (.FailedPrecondition ctx m none di)).context.getKey "resource_type"
        = none) ∧
    (∀ (ctx : ErrorInfo) m di,
      (Problem.from_error (.Aborted ctx m none di)).context.getKey "resource_type" = none) ∧
    (∀ (ctx : Validation) m di,
      (Problem.from_error (.OutOfRange ctx m none di)).context.getKey "resource_type" = none) ∧
    (∀ (ctx : ErrorInfo) m di,
      (Problem.from_error (.Unimplemented ctx m none di)).context.getKey "resource_type"
        = none) ∧
    (∀ (ctx : DebugInfo) m di,
      (Problem.from_error (.Internal ctx m none di)).context.getKey "resource_type" = none) ∧
    (∀ (ctx : RetryInfo) m di,
      (Problem.from_error (.ServiceUnavailable ctx m none di)).context.getKey "resource_type"
        = none) ∧
    (∀ (ctx : ErrorInfo) m di,
      (Problem.from_error (.Unauthenticated ctx m none di)).context.getKey "resource_type"
        = none) ∧
    (∀ (ctx : ResourceInfo) m di,
      (Problem.from_error (.NotFound ctx m none di)).context.getKey "resource_type" =
        some (.str ctx.resource_type)) ∧
    (∀ (ctx : ResourceInfo) m di,
      (Problem.from_error (.AlreadyExists ctx m none di)).context.getKey "resource_type" =
        some (.str ctx.resource_type)) ∧
    (∀ (ctx : ResourceInfo) m di,
      (Problem.from_error (.DataLoss ctx m none di)).context.getKey "resource_type" =
        some (.str ctx.resource_type)) := by
  and_intros
  · intro e rt h
    obtain ⟨kvs, hk⟩ := e.ctxJson_isObj
    simp [Problem.from_error, Problem.build, h, hk, Json.getKey_setKey_obj]
  all_goals intro ctx m di
  all_goals (cases ctx <;> rfl)

/-- C2 amended witness: a concretely tagged error carries its tag in the
context. -/
theorem claim_C2_amended_witness :
    (Problem.from_error ((CanonicalError.unknown "boom").with_resource_type "X")).context.getKey
      "resource_type" = some (.str "X") :=
  claim_C2_amended.1 _ "X" rfl

/-- C1: for every category and every context value of its bound type,
constructing the error, converting it to a `Problem` (via `from_error`, which
the `From` conversion equals), and converting back succeeds with the same
category, message and status code. -/
theorem claim_C1 :
    (∀ ctx : RequestInfo, RoundTripOk (CanonicalError.cancelled ctx)) ∧
    (∀ detail : String, RoundTripOk (CanonicalError.unknown detail)) ∧
    (∀ ctx : Validation, RoundTripOk (CanonicalError.invalid_argument ctx)) ∧
    (∀ ctx : RequestInfo, RoundTripOk (CanonicalError.deadline_exceeded ctx)) ∧
    (∀ ctx : ResourceInfo, RoundTripOk (CanonicalError.not_found ctx)) ∧
    (∀ ctx : ResourceInfo, RoundTripOk (CanonicalError.already_exists ctx)) ∧
    (∀ ctx : ErrorInfo, RoundTripOk (CanonicalError.permission_denied ctx)) ∧
    (∀ ctx : QuotaFailure, RoundTripOk (CanonicalError.resource_exhausted ctx)) ∧
    (∀ ctx : PreconditionFailure, RoundTripOk (CanonicalError.failed_precondition ctx)) ∧
    (∀ ctx : ErrorInfo, RoundTripOk (CanonicalError.aborted ctx)) ∧
    (∀ ctx : Validation, RoundTripOk (CanonicalError.out_of_range ctx)) ∧
    (∀ ctx : ErrorInfo, RoundTripOk (CanonicalError.unimplemented ctx)) ∧
    (∀ ctx : DebugInfo, RoundTripOk (CanonicalError.internal ctx)) ∧
    (∀ ctx : RetryInfo, RoundTripOk (CanonicalError.service_unavailable ctx)) ∧
    (∀ ctx : ResourceInfo, RoundTripOk (CanonicalError.data_loss ctx)) ∧
    (∀ ctx : ErrorInfo, RoundTripOk (CanonicalError.unauthenticated ctx)) ∧
    (∀ e : CanonicalError, Problem.fromCanonical e = Problem.from_error e) :=
  ⟨fun ctx => ⟨_, tryFrom_cancelled ctx _ none, rfl, rfl, rfl⟩,
   fun detail => ⟨_, tryFrom_unknown (DebugInfo.new detail) detail none, rfl, rfl, rfl⟩,
   fun ctx => ⟨_, tryFrom_invalid_argument ctx _ none, rfl, rfl, rfl⟩,
   fun ctx => ⟨_, tryFrom_deadline_exceeded ctx _ none, rfl, rfl, rfl⟩,
   fun ctx => ⟨_, tryFrom_not_found ctx _ none, rfl, rfl, rfl⟩,
   fun ctx => ⟨_, tryFrom_already_exists ctx _ none, rfl, rfl, rfl⟩,
   fun ctx => ⟨_, tryFrom_permission_denied ctx _ none, rfl, rfl, rfl⟩,
   fun ctx => ⟨_, tryFrom_resource_exhausted ctx _ none, rfl, rfl, rfl⟩,
   fun ctx => ⟨_, tryFrom_failed_precondition ctx _ none, rfl, rfl, rfl⟩,
   fun ctx => ⟨_, tryFrom_aborted ctx _ none, rfl, rfl, rfl⟩,
   fun ctx => ⟨_, tryFrom_out_of_range ctx _ none, rfl, rfl, rfl⟩,
   fun ctx => ⟨_, tryFrom_unimplemented ctx _ none, rfl, rfl, rfl⟩,
   fun ctx => ⟨_, tryFrom_internal ctx _ none, rfl, rfl, rfl⟩,
   fun ctx => ⟨_, tryFrom_service_unavailable ctx _ none, rfl, rfl, rfl⟩,
   fun ctx => ⟨_, tryFrom_data_loss ctx _ none, rfl, rfl, rfl⟩,
   fun ctx => ⟨_, tryFrom_unauthenticated ctx _ none, rfl, rfl, rfl⟩,
   fun _ => rfl⟩

/-- The debug-payload step never reports a malformed type URI. -/
theorem debugParse_ne_invalidType (d : Option Json) (cat s : String) :
    debugParse d cat ≠ .error (.InvalidType s) := by
  unfold debugParse
  split <;> (try split) <;> simp

/-- C7: the conversion fails with `InvalidType` exactly when the type string
does not consist of the fixed leading segment, a category string, and the
fixed trailing segment — and the error then carries the whole offending type
string.  No other input produces `InvalidType`. -/
theorem claim_C7 (p : Problem) (s : String) :
    CanonicalError.tryFrom p = .error (.InvalidType s) ↔
      stripCat p.problem_type = none ∧ s = p.problem_type := by
  constructor
  · intro h
    cases hc : stripCat p.problem_type with
    | some cat =>
      exfalso
      unfold CanonicalError.tryFrom parse_category at h
      rw [hc] at h
      simp only [] at h
      cases hd : debugParse p.debug cat with
      | error e =>
        rw [hd] at h
        simp only [] at h
        have he := Except.error.inj h
        exact debugParse_ne_invalidType p.debug cat s (he ▸ hd)
      | ok di =>
        rw [hd] at h
        simp only [] at h
        exact dispatch_ne_invalidType cat p.context p.detail _ di s h
    | none =>
      unfold CanonicalError.tryFrom parse_category at h
      rw [hc] at h
      simp only [] at h
      have h2 := Except.error.inj h
      have h3 : p.problem_type = s := by
        cases h2
        rfl
      exact ⟨rfl, h3.symm⟩
  · rintro ⟨hc, rfl⟩
    unfold CanonicalError.tryFrom parse_category
    rw [hc]

/-- C3 counterexample: a well-formed type URI with the unknown category
`nonexistent` does not produce `UnknownCategory` when the problem's `debug`
field fails to deserialize — the conversion reports
`ContextDeserializationFailed` instead, because the debug payload is parsed
before the category dispatch. -/
theorem claim_C3_counterexample :
    CanonicalError.tryFrom
      { problem_type := "gts.cf.core.errors.err.v1~cf.core.errors.nonexistent.v1~",
        title := "Unknown", status := 500, detail := "test", instance_ := none,
        trace_id := none, context := .obj [], debug := some (.num 5) } =
      .error (.ContextDeserializationFailed "nonexistent") ∧
    CanonicalError.tryFrom
      { problem_type := "gts.cf.core.errors.err.v1~cf.core.errors.nonexistent.v1~",
        title := "Unknown", status := 500, detail := "test", instance_ := none,
        trace_id := none, context := .obj [], debug := some (.num 5) } ≠
      .error (.UnknownCategory "nonexistent") := by
  refine ⟨rfl, fun h => ?_⟩
  have h2 := Except.error.inj h
  cases h2

/-- C3 amended: a well-formed type URI with an unknown category `c` yields
`UnknownCategory c` regardless of the context field, provided the `debug`
field is absent or deserializes as a `DebugInfo`; when a present `debug`
value fails to deserialize, the conversion instead fails with
`ContextDeserializationFailed` carrying `c`.  Both clauses are universal
over Problems and category names. -/
theorem claim_C3_amended :
    (∀ (p : Problem) (c : String),
      p.problem_type = gtsTypePre ++ c ++ gtsTypeSuf →
      c ∉ registryNames →
      (p.debug = none ∨
        ∃ v info, p.debug = some v ∧ DebugInfo.fromJson? v = some info) →
      CanonicalError.tryFrom p = .error (.UnknownCategory c)) ∧
    (∀ (p : Problem) (c : String) (v : Json),
      p.problem_type = gtsTypePre ++ c ++ gtsTypeSuf →
      p.debug = some v →
      DebugInfo.fromJson? v = none →
      CanonicalError.tryFrom p = .error (.ContextDeserializationFailed c)) := by
  constructor
  · intro p c h1 h2 h3
    unfold CanonicalError.tryFrom parse_category
    rw [h1, stripCat_concat]
    simp only []
    rcases h3 with h3 | ⟨v, info, hv, hinfo⟩
    · rw [h3]
      simp only [debugParse]
      exact dispatch_unknownCategory c p.context p.detail _ none h2
    · rw [hv]
      simp only [debugParse, hinfo]
      exact dispatch_unknownCategory c p.context p.detail _ (some info) h2
  · intro p c v h1 hv hbad
    unfold CanonicalError.tryFrom parse_category
    rw [h1, stripCat_concat]
    simp only []
    rw [hv]
    simp only [debugParse, hbad]

/-- C3 amended witness: a concrete unknown-category URI with no debug field
is rejected as `UnknownCategory`, and the same URI with an undeserializable
debug value is rejected as `ContextDeserializationFailed`. -/
theorem claim_C3_amended_witness :
    (CanonicalError.tryFrom
      { problem_type := "gts.cf.core.errors.err.v1~cf.core.errors.bogus.v1~",
        title := "t", status := 500, detail := "d", instance_ := none,
        trace_id := none, context := .obj [], debug := none } =
      .error (.UnknownCategory "bogus")) ∧
    (CanonicalError.tryFrom
      { problem_type := "gts.cf.core.errors.err.v1~cf.core.errors.bogus.v1~",
        title := "t", status := 500, detail := "d", instance_ := none,
        trace_id := none, context := .obj [], debug := some (.num 7) } =
      .error (.ContextDeserializationFailed "bogus")) :=
  ⟨claim_C3_amended.1 _ "bogus" rfl (by decide) (Or.inl rfl),
   claim_C3_amended.2 _ "bogus" (.num 7) rfl rfl rfl⟩
